import Mathlib

/-!
Shallow embedding of the dashboard-aggregation and inventory-state-derivation
core of the `sajub21/budget` (LOFT) repository.

Sources embedded here:
  * Product model (`productSchema`, `src/unnamed/part_013`): inventory fields
    and the pre-save status hook.
  * Sale model (`src/backend/src/models/Sale.js`): fees, statuses, and the
    post-save / post-findOneAndUpdate inventory hooks.
  * Expense model (`src/backend/src/models/Expense.js`): amount, currency, date.
  * Dashboard route (`src/backend/src/routes/dashboard.js`): period switch,
    metric aggregations, growth/margin formulas, and the alerts endpoint.

Modelling conventions:
  * JavaScript numbers that carry money are modelled as `ℚ`; counts and
    quantities as `Nat`/`Int`; timestamps (`Date.getTime()` milliseconds) as
    `Int`.
  * `Number.prototype.toFixed(2)` followed by `parseFloat` is modelled by
    `toFixed2`: round the magnitude half-up to two decimal places, keeping the
    sign (the ECMAScript algorithm negates first, then picks the larger
    candidate digit string on ties).
  * Mongoose semantics that matter here: document middleware registered with
    `schema.pre(save)` runs only on `document.save()`; `findByIdAndUpdate` /
    `findOneAndUpdate` apply their update operators directly and do NOT run the
    save middleware.  Display-only strings (alert titles and messages) are not
    modelled; the structured fields of each alert are.
-/

namespace Budget

/-- Currencies supported by the app (`enum: [GBP, USD, EUR]`). -/
inductive Currency where
  | GBP | USD | EUR
deriving DecidableEq, Repr

/-- Marketplaces a sale can come from (`saleSchema.platform` enum). -/
inductive Platform where
  | vinted | depop | ebay | facebook | instagram | in_person | other
deriving DecidableEq, Repr

/-- Sale status state machine values (`saleSchema.status` enum). -/
inductive SaleStatus where
  | pending | paid | shipped | delivered | completed | cancelled | refunded
deriving DecidableEq, Repr

/-- Product stock status (`productSchema.status` enum). -/
inductive ProductStatus where
  | active | low_stock | out_of_stock | archived
deriving DecidableEq, Repr

/-- `user.subscription.type` enum. -/
inductive SubscriptionType where
  | free | pro
deriving DecidableEq, Repr

/-- The slice of the User document the dashboard reads. -/
structure User where
  currency : Currency
  subscriptionType : SubscriptionType
deriving DecidableEq, Repr

/-- `saleSchema.fees`: each component defaults to 0. -/
structure Fees where
  platformFee : ℚ
  paymentFee : ℚ
  shippingFee : ℚ
  promotionDiscount : ℚ
  other : ℚ
deriving DecidableEq, Repr

/-- The slice of a Sale document used by the hooks and the dashboard.
`saleDate` is a millisecond timestamp; `isReturned` is `returns.isReturned`. -/
structure Sale where
  user : Nat
  product : Nat
  quantity : Int
  salePrice : ℚ
  currency : Currency
  platform : Platform
  fees : Fees
  saleDate : Int
  status : SaleStatus
  isReturned : Bool
  isArchived : Bool
deriving DecidableEq, Repr

/-- `productSchema.inventory`: `quantity` and `restockThreshold`.
Both are validated `min: 0` on document save, but `findByIdAndUpdate` with
`$inc` bypasses that validator, so the model uses `Int`. -/
structure Inventory where
  quantity : Int
  restockThreshold : Int
deriving DecidableEq, Repr

/-- The slice of a Product document used by the hooks and the dashboard.
`purchasePrice` is `pricing.purchasePrice`; `totalSales` is
`analytics.totalSales`. -/
structure Product where
  user : Nat
  purchasePrice : ℚ
  inventory : Inventory
  status : ProductStatus
  totalSales : Int
  isArchived : Bool
deriving DecidableEq, Repr

/-- The slice of an Expense document used by the dashboard.
`date` is a millisecond timestamp. -/
structure Expense where
  user : Nat
  amount : ℚ
  currency : Currency
  date : Int
  isArchived : Bool
deriving DecidableEq, Repr

/-! ## Inventory State Deriver

`productSchema.pre(save)` in `src/unnamed/part_013`:

    if (this.inventory.quantity === 0) this.status = out_of_stock;
    else if (this.inventory.quantity <= this.inventory.restockThreshold)
      this.status = low_stock;
    else this.status = active;
-/

/-- The status derivation applied by the product pre-save hook, as a pure
function of `(quantity, restockThreshold)`. -/
def deriveStatus (quantity restockThreshold : Int) : ProductStatus :=
  if quantity = 0 then ProductStatus.out_of_stock
  else if quantity ≤ restockThreshold then ProductStatus.low_stock
  else ProductStatus.active

/-- The product pre-save hook: recompute `status` from the inventory fields.
Runs on every `document.save()` of a Product. -/
def productPreSave (p : Product) : Product :=
  { p with status := deriveStatus p.inventory.quantity p.inventory.restockThreshold }

/-- Persisting a Product through `document.save()`: the pre-save middleware
runs first, then the document is stored. -/
def saveProduct (p : Product) : Product :=
  productPreSave p

/-- `Product.findByIdAndUpdate(id, { $inc: { inventory.quantity: dq,
analytics.totalSales: dts } })`: Mongoose applies the `$inc` operators
directly in the store; document save middleware does not run, so `status`
is left untouched. -/
def productIncUpdate (p : Product) (dq dts : Int) : Product :=
  { p with
    inventory := { p.inventory with quantity := p.inventory.quantity + dq }
    totalSales := p.totalSales + dts }

/-! ## Sale lifecycle hooks (`src/backend/src/models/Sale.js`) -/

/-- `saleSchema.post(save)`: when the saved sale has `status === completed` and
`returns.isReturned` is false, decrement the linked Product field
`inventory.quantity` by `sale.quantity` and increment `analytics.totalSales`
by `sale.quantity`, via `findByIdAndUpdate` + `$inc`.  The hook fires on every
save of the sale document and keeps no marker of having already run. -/
def salePostSaveEffect (s : Sale) (p : Product) : Product :=
  if s.status = SaleStatus.completed ∧ s.isReturned = false then
    productIncUpdate p (-s.quantity) s.quantity
  else p

/-- `saleSchema.post(findOneAndUpdate)`: when the updated sale has status
`cancelled` or `refunded`, restore the Product quantity and decrement
`analytics.totalSales`. -/
def saleRestoreEffect (s : Sale) (p : Product) : Product :=
  if s.status = SaleStatus.cancelled ∨ s.status = SaleStatus.refunded then
    productIncUpdate p s.quantity (-s.quantity)
  else p

/-! ## Numeric helper: `toFixed(2)` -/

/-- Model of `parseFloat(x.toFixed(2))`: ECMAScript `toFixed` takes the
magnitude, picks the closest 2-decimal digit string (larger candidate on
ties), and re-attaches the sign. -/
def toFixed2 (q : ℚ) : ℚ :=
  if q < 0 then -((⌊-q * 100 + 1 / 2⌋ : ℚ) / 100)
  else (⌊q * 100 + 1 / 2⌋ : ℚ) / 100

/-! ## Financial Aggregator (`src/backend/src/routes/dashboard.js`) -/

/-- Result shape of the `salesMetrics` `$group` stage. -/
structure SalesData where
  totalSales : Nat
  totalRevenue : ℚ
  totalFees : ℚ
  averageOrderValue : ℚ
deriving DecidableEq, Repr

/-- The fallback object `{ totalSales: 0, totalRevenue: 0, totalFees: 0,
averageOrderValue: 0 }` used when the aggregation returns no group. -/
def zeroSalesData : SalesData :=
  { totalSales := 0, totalRevenue := 0, totalFees := 0, averageOrderValue := 0 }

/-- Result shape of the `expenseMetrics` `$group` stage. -/
structure ExpenseData where
  totalExpenses : ℚ
  expenseCount : Nat
deriving DecidableEq, Repr

/-- The fallback object `{ totalExpenses: 0, expenseCount: 0 }`. -/
def zeroExpenseData : ExpenseData :=
  { totalExpenses := 0, expenseCount := 0 }

/-- The `$match` stage of the `salesMetrics` pipeline:
`{ user, isArchived: false, saleDate: { $gte: startDate }, currency }`.
Note there is no upper bound on `saleDate`. -/
def saleMatchesMetrics (uid : Nat) (startT : Int) (cur : Currency) (s : Sale) : Bool :=
  s.user == uid && !s.isArchived && decide (startT ≤ s.saleDate) && s.currency == cur

/-- The fee expression summed per sale in the `salesMetrics` pipeline:
`$add: [platformFee, paymentFee, shippingFee, other, promotionDiscount * -1]`. -/
def saleFeeTerm (s : Sale) : ℚ :=
  s.fees.platformFee + s.fees.paymentFee + s.fees.shippingFee + s.fees.other +
    s.fees.promotionDiscount * (-1)

/-- The `salesMetrics` aggregation: match, then one `$group` computing the
count, the sums and the `$avg`.  An aggregation with no matching document
produces no group at all (`none`); the route substitutes `zeroSalesData`. -/
def salesMetrics (sales : List Sale) (uid : Nat) (startT : Int) (cur : Currency) :
    Option SalesData :=
  let matched := sales.filter (saleMatchesMetrics uid startT cur)
  if matched.isEmpty then none
  else some
    { totalSales := matched.length
      totalRevenue := (matched.map Sale.salePrice).sum
      totalFees := (matched.map saleFeeTerm).sum
      averageOrderValue := (matched.map Sale.salePrice).sum / (matched.length : ℚ) }

/-- The `$match` stage of the `expenseMetrics` pipeline:
`{ user, isArchived: false, date: { $gte: startDate }, currency }`. -/
def expenseMatchesMetrics (uid : Nat) (startT : Int) (cur : Currency) (e : Expense) : Bool :=
  e.user == uid && !e.isArchived && decide (startT ≤ e.date) && e.currency == cur

/-- The `expenseMetrics` aggregation. -/
def expenseMetrics (expenses : List Expense) (uid : Nat) (startT : Int) (cur : Currency) :
    Option ExpenseData :=
  let matched := expenses.filter (expenseMatchesMetrics uid startT cur)
  if matched.isEmpty then none
  else some
    { totalExpenses := (matched.map Expense.amount).sum
      expenseCount := matched.length }

/-- The `$match` stage shared by the `topProducts`, `platformPerformance`,
`salesTrend` and `recentSales`-style pipelines:
`{ user, isArchived: false, saleDate: { $gte: startDate } }`.
The currency parameter of the request does not appear in these pipelines. -/
def saleMatchesChart (uid : Nat) (startT : Int) (s : Sale) : Bool :=
  s.user == uid && !s.isArchived && decide (startT ≤ s.saleDate)

/-- One group of the `platformPerformance` pipeline: for a platform key,
`sales: { $sum: 1 }, revenue: { $sum: salePrice }` over the matched sales.
The sort by revenue orders the groups but does not change their contents. -/
def platformPerformanceGroup (sales : List Sale) (uid : Nat) (startT : Int)
    (pl : Platform) : Nat × ℚ :=
  let grouped := (sales.filter (saleMatchesChart uid startT)).filter
    (fun s => s.platform == pl)
  (grouped.length, (grouped.map Sale.salePrice).sum)

/-- One group of the `topProducts` pipeline: for a product key,
`totalSold: { $sum: quantity }, totalRevenue: { $sum: salePrice }`. -/
def topProductsGroup (sales : List Sale) (uid : Nat) (startT : Int)
    (prodId : Nat) : Int × ℚ :=
  let grouped := (sales.filter (saleMatchesChart uid startT)).filter
    (fun s => s.product == prodId)
  ((grouped.map Sale.quantity).sum, (grouped.map Sale.salePrice).sum)

/-- The previous-period `$match` stage:
`saleDate: { $gte: previousPeriodStart, $lt: startDate }` plus user /
archived / currency conditions. -/
def saleMatchesPrevious (uid : Nat) (prevStartT startT : Int) (cur : Currency)
    (s : Sale) : Bool :=
  s.user == uid && !s.isArchived && decide (prevStartT ≤ s.saleDate) &&
    decide (s.saleDate < startT) && s.currency == cur

/-- The `previousSalesMetrics` aggregation (`totalRevenue` and count). -/
def previousSalesMetrics (sales : List Sale) (uid : Nat) (prevStartT startT : Int)
    (cur : Currency) : Option (ℚ × Nat) :=
  let matched := sales.filter (saleMatchesPrevious uid prevStartT startT cur)
  if matched.isEmpty then none
  else some ((matched.map Sale.salePrice).sum, matched.length)

/-! ## Growth and margin formulas -/

/-- The growth expression used for both revenue and sales-count growth:

    previous > 0 ? parseFloat((((current - previous) / previous) * 100).toFixed(2))
                 : current > 0 ? 100 : 0
-/
def growthCalc (previous current : ℚ) : ℚ :=
  if previous > 0 then toFixed2 ((current - previous) / previous * 100)
  else if current > 0 then 100 else 0

/-- `revenueGrowth` in the dashboard route. -/
def revenueGrowth (prevRevenue curRevenue : ℚ) : ℚ :=
  growthCalc prevRevenue curRevenue

/-- `salesGrowth` in the dashboard route (over sale counts). -/
def salesGrowth (prevCount curCount : Nat) : ℚ :=
  growthCalc (prevCount : ℚ) (curCount : ℚ)

/-! ## Profit metrics and the composed dashboard -/

/-- The headline metric portion of the dashboard payload. -/
structure DashboardMetrics where
  totalSales : Nat
  totalRevenue : ℚ
  totalFees : ℚ
  averageOrderValue : ℚ
  totalExpenses : ℚ
  expenseCount : Nat
  netRevenue : ℚ
  netProfit : ℚ
  profitMargin : ℚ
deriving DecidableEq, Repr

/-- The metric assembly in the dashboard route:

    salesData = salesMetrics[0] || zeros; expenseData = expenseMetrics[0] || zeros;
    netRevenue = salesData.totalRevenue - salesData.totalFees;
    netProfit = netRevenue - expenseData.totalExpenses;
    profitMargin = netRevenue > 0 ? parseFloat(((netProfit / netRevenue) * 100).toFixed(2)) : 0
-/
def composeDashboardMetrics (sales : List Sale) (expenses : List Expense)
    (uid : Nat) (startT : Int) (cur : Currency) : DashboardMetrics :=
  let salesData := (salesMetrics sales uid startT cur).getD zeroSalesData
  let expenseData := (expenseMetrics expenses uid startT cur).getD zeroExpenseData
  let netRevenue := salesData.totalRevenue - salesData.totalFees
  let netProfit := netRevenue - expenseData.totalExpenses
  let profitMargin := if netRevenue > 0 then toFixed2 (netProfit / netRevenue * 100) else 0
  { totalSales := salesData.totalSales
    totalRevenue := salesData.totalRevenue
    totalFees := salesData.totalFees
    averageOrderValue := salesData.averageOrderValue
    totalExpenses := expenseData.totalExpenses
    expenseCount := expenseData.expenseCount
    netRevenue := netRevenue
    netProfit := netProfit
    profitMargin := profitMargin }

/-! ## Period Resolver

The dashboard route computes `startDate` from `now` with a `switch` on the
period keyword.  Only the calendar pieces the claims exercise are embedded:
the `quarter` branch `new Date(now.getFullYear(), Math.floor(now.getMonth() / 3) * 3, 1)`
and the previous-period computation
`previousPeriodStart = startDate.getTime() - (now.getTime() - startDate.getTime())`.
-/

/-- Calendar components of a JavaScript `Date`: `getFullYear()` and the
zero-indexed `getMonth()` (0 = January … 11 = December), plus
`getDate()` (day of month, 1-based). -/
structure JSDate where
  year : Int
  month : Nat
  day : Nat
deriving DecidableEq, Repr

/-- The `quarter` branch of the period switch:
`new Date(now.getFullYear(), Math.floor(now.getMonth() / 3) * 3, 1)`
(midnight on the first day of that month).  `Math.floor` on a nonnegative
quotient is `Nat` division. -/
def quarterStartDate (now : JSDate) : JSDate :=
  { year := now.year, month := now.month / 3 * 3, day := 1 }

/-- `previousPeriodStart` as a millisecond timestamp:
`startDate.getTime() - (now.getTime() - startDate.getTime())`. -/
def previousPeriodStart (startT endT : Int) : Int :=
  startT - (endT - startT)

/-! ## Alert Deriver (`GET /api/dashboard/alerts`) -/

/-- Alert `type` field values produced by the alerts endpoint. -/
inductive AlertType where
  | low_stock | out_of_stock | subscription_limit | pending_sales
deriving DecidableEq, Repr

/-- Alert `severity` field values. -/
inductive Severity where
  | warning | error | info
deriving DecidableEq, Repr

/-- The structured `data` payload attached to some alerts (display strings are
not modelled). -/
inductive AlertData where
  | noData : AlertData
  | products : List Product → AlertData
  | limitInfo : (currentCount limit : Nat) → AlertData
deriving DecidableEq, Repr

/-- An alert, minus its display strings (`title`, `message`). -/
structure Alert where
  type : AlertType
  severity : Severity
  data : AlertData
  actionRequired : Bool
deriving DecidableEq, Repr

/-- `Product.find({user, isArchived: false, status: low_stock}).limit(10)`. -/
def lowStockProducts (products : List Product) (uid : Nat) : List Product :=
  ((products.filter (fun p => p.user == uid && !p.isArchived &&
    p.status == ProductStatus.low_stock)).take 10)

/-- `Product.countDocuments({user, isArchived: false, status: out_of_stock})`. -/
def outOfStockCount (products : List Product) (uid : Nat) : Nat :=
  (products.filter (fun p => p.user == uid && !p.isArchived &&
    p.status == ProductStatus.out_of_stock)).length

/-- `Product.countDocuments({user, isArchived: false})`. -/
def nonArchivedProductCount (products : List Product) (uid : Nat) : Nat :=
  (products.filter (fun p => p.user == uid && !p.isArchived)).length

/-- `Sale.countDocuments({user, isArchived: false, status: {$in: [pending, paid]}})`. -/
def pendingSalesCount (sales : List Sale) (uid : Nat) : Nat :=
  (sales.filter (fun s => s.user == uid && !s.isArchived &&
    (s.status == SaleStatus.pending || s.status == SaleStatus.paid))).length

/-- The subscription-limit alert pushed for free users at ≥ 80 products:
severity `info`, `data: { currentCount, limit: 100 }`, `actionRequired: false`. -/
def subscriptionLimitAlert (currentCount : Nat) : Alert :=
  { type := AlertType.subscription_limit
    severity := Severity.info
    data := AlertData.limitInfo currentCount 100
    actionRequired := false }

/-- The alerts endpoint: build the list in source order — low stock, out of
stock, subscription limit (free tier only, at ≥ 80 non-archived products),
pending sales. -/
def deriveAlerts (u : User) (uid : Nat) (products : List Product)
    (sales : List Sale) : List Alert :=
  let a0 : List Alert := []
  let low := lowStockProducts products uid
  let a1 := if low.length > 0 then
      a0 ++ [{ type := AlertType.low_stock, severity := Severity.warning
               data := AlertData.products low, actionRequired := true }]
    else a0
  let oos := outOfStockCount products uid
  let a2 := if oos > 0 then
      a1 ++ [{ type := AlertType.out_of_stock, severity := Severity.error
               data := AlertData.noData, actionRequired := true }]
    else a1
  let a3 := if u.subscriptionType == SubscriptionType.free then
      let productCount := nonArchivedProductCount products uid
      if productCount ≥ 80 then a2 ++ [subscriptionLimitAlert productCount] else a2
    else a2
  let pend := pendingSalesCount sales uid
  let a4 := if pend > 0 then
      a3 ++ [{ type := AlertType.pending_sales, severity := Severity.info
               data := AlertData.noData, actionRequired := true }]
    else a3
  a4

/-! ## Spec-side formalization of the Financial Aggregator contract (for C5)

These two definitions follow the wording of spec section 4.4 — they are the
comparison targets for the refinement claim about `salesMetrics`, not
translations of the source. -/

/-- Spec wording, claim C5: the per-sale fee total
(platformFee + paymentFee + shippingFee + other − promotionDiscount). -/
def saleFeeTermSpec (s : Sale) : ℚ :=
  s.fees.platformFee + s.fees.paymentFee + s.fees.shippingFee + s.fees.other -
    s.fees.promotionDiscount

/-- Spec wording, claim C5: aggregate over all non-archived Sales of the user
with `saleDate` in the half-open interval `[start, end)` and matching
currency; `totalSales` is the record count, `totalRevenue` the sum of
`salePrice`, `totalFees` the sum of `saleFeeTermSpec`, `averageOrderValue`
the mean of `salePrice` (0 over the empty set). -/
def salesMetricsSpec (sales : List Sale) (uid : Nat) (startT endT : Int)
    (cur : Currency) : SalesData :=
  let matched := sales.filter (fun s =>
    s.user == uid && !s.isArchived && decide (startT ≤ s.saleDate) &&
      decide (s.saleDate < endT) && s.currency == cur)
  if matched.isEmpty then zeroSalesData
  else
    { totalSales := matched.length
      totalRevenue := (matched.map Sale.salePrice).sum
      totalFees := (matched.map saleFeeTermSpec).sum
      averageOrderValue := (matched.map Sale.salePrice).sum / (matched.length : ℚ) }

/-- Spec wording with the one amendment claim C5 needs: the same aggregate,
but over `saleDate ≥ start` with no upper bound, matching the `$gte`-only
`$match` of the source. -/
def salesMetricsSpecAmended (sales : List Sale) (uid : Nat) (startT : Int)
    (cur : Currency) : SalesData :=
  let matched := sales.filter (saleMatchesMetrics uid startT cur)
  if matched.isEmpty then zeroSalesData
  else
    { totalSales := matched.length
      totalRevenue := (matched.map Sale.salePrice).sum
      totalFees := (matched.map saleFeeTermSpec).sum
      averageOrderValue := (matched.map Sale.salePrice).sum / (matched.length : ℚ) }

/-! ## Concrete documents used by the counterexamples and witnesses -/

/-- A product owned by user 1 with `quantity = 5`, `restockThreshold = 2`,
persisted through `document.save()` (so its stored status is `active`). -/
def productBefore : Product :=
  saveProduct
    { user := 1, purchasePrice := 20
      inventory := { quantity := 5, restockThreshold := 2 }
      status := ProductStatus.active, totalSales := 0, isArchived := false }

/-- A completed, non-returned sale of 3 units of that product. -/
def completedSale : Sale :=
  { user := 1, product := 1, quantity := 3, salePrice := 45
    currency := Currency.GBP, platform := Platform.vinted
    fees := { platformFee := 0, paymentFee := 0, shippingFee := 0
              promotionDiscount := 0, other := 0 }
    saleDate := 10, status := SaleStatus.completed
    isReturned := false, isArchived := false }

/-! ## Claims -/

/-- Claim C1: for every pair `(quantity, restockThreshold)` with both
nonnegative, the Inventory State Deriver run before a Product save is total
and yields exactly `out_of_stock` when `quantity = 0`, `low_stock` when
`0 < quantity ≤ restockThreshold`, and `active` when
`quantity > restockThreshold`; and the pre-save hook stores exactly this
derived status. -/
theorem c1_derive_status_cases (q t : Int) (hq : 0 ≤ q) (ht : 0 ≤ t) :
    (q = 0 → deriveStatus q t = ProductStatus.out_of_stock) ∧
    (0 < q → q ≤ t → deriveStatus q t = ProductStatus.low_stock) ∧
    (t < q → deriveStatus q t = ProductStatus.active) ∧
    (∀ p : Product, (saveProduct p).status
      = deriveStatus p.inventory.quantity p.inventory.restockThreshold) := by
  refine ⟨fun h => by simp [deriveStatus, h], fun h1 h2 => ?_, fun h => ?_, fun p => rfl⟩
  · unfold deriveStatus
    rw [if_neg (by omega), if_pos h2]
  · unfold deriveStatus
    rw [if_neg (by omega), if_neg (by omega)]

/-- Witness for C1 at concrete inputs. -/
theorem c1_derive_status_cases_witness :
    deriveStatus 0 2 = ProductStatus.out_of_stock ∧
    deriveStatus 2 3 = ProductStatus.low_stock ∧
    deriveStatus 5 2 = ProductStatus.active :=
  ⟨(c1_derive_status_cases 0 2 (by decide) (by decide)).1 rfl,
   (c1_derive_status_cases 2 3 (by decide) (by decide)).2.1 (by decide) (by decide),
   (c1_derive_status_cases 5 2 (by decide) (by decide)).2.2.1 (by decide)⟩

/-- Claim C2, evaluated at its failing input: for the saved product with
`quantity = 5`, `restockThreshold = 2` and stored status `active`, the
inventory write triggered by completing a sale of 3 units goes through
`findByIdAndUpdate` + `$inc`, which does not run the pre-save status hook:
the stored quantity becomes 2 (as the claim says) but the stored status stays
`active`, even though the deriver would classify quantity 2 against
threshold 2 as `low_stock`. -/
theorem c2_sale_completion_skips_status_hook :
    (salePostSaveEffect completedSale productBefore).inventory.quantity = 2 ∧
    productBefore.status = ProductStatus.active ∧
    deriveStatus 2 2 = ProductStatus.low_stock ∧
    (salePostSaveEffect completedSale productBefore).status = ProductStatus.active ∧
    (salePostSaveEffect completedSale productBefore).status ≠ ProductStatus.low_stock := by
  refine ⟨rfl, rfl, rfl, rfl, ?_⟩
  decide

/-- Claim C3, evaluated at its failing input: the post-save hook fires on
every save of a completed sale and keeps no marker, so saving the same
completed sale twice decrements the product quantity twice
(5 − 3 = 2 after the first save, 2 − 3 = −1 after the second): the
completion effect is not idempotent per sale. -/
theorem c3_sale_completion_not_idempotent :
    (salePostSaveEffect completedSale productBefore).inventory.quantity = 2 ∧
    (salePostSaveEffect completedSale
        (salePostSaveEffect completedSale productBefore)).inventory.quantity = -1 ∧
    (salePostSaveEffect completedSale
        (salePostSaveEffect completedSale productBefore)).inventory.quantity ≠
      (salePostSaveEffect completedSale productBefore).inventory.quantity := by
  refine ⟨rfl, rfl, ?_⟩
  decide

/-- A second sale identical in ownership and platform but priced in USD. -/
def usdSale : Sale :=
  { user := 1, product := 1, quantity := 1, salePrice := 30
    currency := Currency.USD, platform := Platform.vinted
    fees := { platformFee := 0, paymentFee := 0, shippingFee := 0
              promotionDiscount := 0, other := 0 }
    saleDate := 20, status := SaleStatus.completed
    isReturned := false, isArchived := false }

/-- The revenue the dashboard reports for one platform: the route receives a
currency filter with the request, but the `platformPerformance` pipeline
omits it from its `$match`, so the parameter is unused here exactly as in the
source. -/
def dashboardPlatformRevenue (sales : List Sale) (uid : Nat) (startT : Int)
    (requestCurrency : Currency) (pl : Platform) : ℚ :=
  (platformPerformanceGroup sales uid startT pl).2

/-- Claim C4, evaluated at its failing input: with the request currency fixed
to GBP, the platform-performance revenue for vinted is 45 when the store
holds only the GBP sale, and 75 once a USD sale is added — adding a sale in a
different currency changes a reported monetary value, because the
chart/breakdown pipelines do not filter by currency. -/
theorem c4_charts_ignore_currency_filter :
    usdSale.currency ≠ Currency.GBP ∧
    dashboardPlatformRevenue [completedSale] 1 0 Currency.GBP Platform.vinted = 45 ∧
    dashboardPlatformRevenue [completedSale, usdSale] 1 0 Currency.GBP Platform.vinted = 75 ∧
    (45 : ℚ) ≠ 75 := by
  refine ⟨by decide, ?_, ?_, by norm_num⟩
  · simp +decide [dashboardPlatformRevenue, platformPerformanceGroup, saleMatchesChart,
      completedSale]
  · simp +decide [dashboardPlatformRevenue, platformPerformanceGroup, saleMatchesChart,
      completedSale, usdSale]
    norm_num

/-- A sale dated after the end of the requested period (`saleDate = 150`,
period end 100). -/
def futureSale : Sale :=
  { user := 1, product := 1, quantity := 1, salePrice := 45
    currency := Currency.GBP, platform := Platform.vinted
    fees := { platformFee := 0, paymentFee := 0, shippingFee := 0
              promotionDiscount := 0, other := 0 }
    saleDate := 150, status := SaleStatus.completed
    isReturned := false, isArchived := false }

/-- Claim C5, counterexample: the claim says a sale with `saleDate ≥ end`
contributes nothing, but the `salesMetrics` `$match` has only
`saleDate: { $gte: startDate }`.  For the period `[0, 100)` the spec-side
aggregate of the single future-dated sale is all zeros, while the source
aggregation reports `totalRevenue = 45`. -/
theorem c5_counterexample_future_sale_included :
    (100 : Int) ≤ futureSale.saleDate ∧
    salesMetricsSpec [futureSale] 1 0 100 Currency.GBP = zeroSalesData ∧
    ((salesMetrics [futureSale] 1 0 Currency.GBP).getD zeroSalesData).totalRevenue = 45 ∧
    (45 : ℚ) ≠ 0 := by
  refine ⟨by decide, ?_, ?_, by norm_num⟩
  · simp +decide [salesMetricsSpec, futureSale]
  · simp +decide [salesMetrics, saleMatchesMetrics, futureSale, zeroSalesData]

/-- Claim C5 as amended: the aggregator totals are computed over exactly the
non-archived Sales of the user with matching currency and `saleDate ≥ start`
(no upper bound), with `totalFees` the sum of
(platformFee + paymentFee + shippingFee + other − promotionDiscount) and
`averageOrderValue` the mean of `salePrice` — stated as equality with the
spec-worded aggregate amended only in its date filter. -/
theorem c5_sales_metrics_refines_amended_spec (sales : List Sale) (uid : Nat)
    (startT : Int) (cur : Currency) :
    (salesMetrics sales uid startT cur).getD zeroSalesData
      = salesMetricsSpecAmended sales uid startT cur := by
  have hfee : saleFeeTerm = saleFeeTermSpec := by
    funext s
    unfold saleFeeTerm saleFeeTermSpec
    ring
  unfold salesMetrics salesMetricsSpecAmended
  rw [hfee]
  by_cases h : (sales.filter (saleMatchesMetrics uid startT cur)).isEmpty
  · simp [h]
  · simp [h]

/-- Claim C6, counterexample: the claim states the unrounded formula
`(current − previous)/previous × 100`, but the source applies `toFixed(2)`.
At previous = 3, current = 4 the formula gives 100/3 = 33.333…, while the
code reports 33.33. -/
theorem c6_counterexample_growth_rounded :
    revenueGrowth 3 4 = 3333 / 100 ∧
    (4 - 3) / 3 * 100 = (100 : ℚ) / 3 ∧
    (3333 / 100 : ℚ) ≠ 100 / 3 := by
  refine ⟨?_, by norm_num, by norm_num⟩
  unfold revenueGrowth growthCalc toFixed2
  rw [if_pos (by norm_num), if_neg (by norm_num)]
  have hf : (⌊((4 : ℚ) - 3) / 3 * 100 * 100 + 1 / 2⌋ : ℤ) = 3333 := by
    rw [Int.floor_eq_iff]
    constructor <;> norm_num
  rw [hf]
  norm_num

/-- Claim C6 as amended: if the previous
period total is 0 then growth is 100 when the current total is positive and
0 when it is also 0; otherwise growth is
`(current − previous)/previous × 100` rounded to two decimal places by
`toFixed(2)`; the same rule holds independently for `salesGrowth` over sale
counts. -/
theorem c6_growth_edge_rules (prevRev curRev : ℚ) (prevCount curCount : Nat) :
    (prevRev = 0 → curRev > 0 → revenueGrowth prevRev curRev = 100) ∧
    (prevRev = 0 → curRev ≤ 0 → revenueGrowth prevRev curRev = 0) ∧
    (0 < prevRev →
      revenueGrowth prevRev curRev = toFixed2 ((curRev - prevRev) / prevRev * 100)) ∧
    (prevCount = 0 → 0 < curCount → salesGrowth prevCount curCount = 100) ∧
    (prevCount = 0 → curCount = 0 → salesGrowth prevCount curCount = 0) ∧
    (0 < prevCount → salesGrowth prevCount curCount
      = toFixed2 (((curCount : ℚ) - prevCount) / prevCount * 100)) := by
  refine ⟨?_, ?_, ?_, ?_, ?_, ?_⟩
  · intro h0 hc
    unfold revenueGrowth growthCalc
    rw [if_neg (by rw [h0]; exact lt_irrefl 0), if_pos hc]
  · intro h0 hc
    unfold revenueGrowth growthCalc
    rw [if_neg (by rw [h0]; exact lt_irrefl 0), if_neg (not_lt.mpr hc)]
  · intro hp
    unfold revenueGrowth growthCalc
    rw [if_pos hp]
  · intro h0 hc
    unfold salesGrowth growthCalc
    rw [if_neg (by rw [h0]; simp), if_pos (by exact_mod_cast hc)]
  · intro h0 hc
    unfold salesGrowth growthCalc
    rw [if_neg (by rw [h0]; simp), if_neg (by rw [hc]; simp)]
  · intro hp
    unfold salesGrowth growthCalc
    rw [if_pos (by exact_mod_cast hp)]

/-- Witness for C6 (amended): the spec scenarios previous = 0, current = 50
gives 100; previous = 0, current = 0 gives 0; and a positive previous period
takes the rounded-formula branch. -/
theorem c6_growth_edge_rules_witness :
    revenueGrowth 0 50 = 100 ∧
    revenueGrowth 0 0 = 0 ∧
    revenueGrowth 2 3 = toFixed2 ((3 - 2) / 2 * 100) ∧
    salesGrowth 0 7 = 100 ∧
    salesGrowth 0 0 = 0 ∧
    salesGrowth 2 3 = toFixed2 (((3 : ℚ) - 2) / 2 * 100) :=
  ⟨(c6_growth_edge_rules 0 50 0 7).1 rfl (by norm_num),
   (c6_growth_edge_rules 0 0 0 7).2.1 rfl le_rfl,
   (c6_growth_edge_rules 2 3 0 7).2.2.1 (by norm_num),
   (c6_growth_edge_rules 0 50 0 7).2.2.2.1 rfl (by norm_num),
   (c6_growth_edge_rules 0 50 0 0).2.2.2.2.1 rfl rfl,
   (c6_growth_edge_rules 0 50 2 3).2.2.2.2.2 (by norm_num)⟩

/-- Helper: the composed margin takes the rounded-formula branch whenever the
net revenue is positive. -/
theorem profitMargin_of_pos_netRevenue (sales : List Sale) (expenses : List Expense)
    (uid : Nat) (startT : Int) (cur : Currency)
    (h : 0 < (composeDashboardMetrics sales expenses uid startT cur).netRevenue) :
    (composeDashboardMetrics sales expenses uid startT cur).profitMargin
      = toFixed2 ((composeDashboardMetrics sales expenses uid startT cur).netProfit
          / (composeDashboardMetrics sales expenses uid startT cur).netRevenue * 100) := by
  unfold composeDashboardMetrics at h ⊢
  simp only at h ⊢
  rw [if_pos h]

/-- Helper: the composed margin is the literal 0 whenever the net revenue is
not positive. -/
theorem profitMargin_of_nonpos_netRevenue (sales : List Sale) (expenses : List Expense)
    (uid : Nat) (startT : Int) (cur : Currency)
    (h : (composeDashboardMetrics sales expenses uid startT cur).netRevenue ≤ 0) :
    (composeDashboardMetrics sales expenses uid startT cur).profitMargin = 0 := by
  unfold composeDashboardMetrics at h ⊢
  simp only at h ⊢
  rw [if_neg (not_lt.mpr h)]

/-- Claim C7 as amended: in every composed dashboard result,
`netProfit = netRevenue − totalExpenses`, and `profitMargin` is
`netProfit/netRevenue × 100` rounded to two decimal places by `toFixed(2)`
when `netRevenue > 0` and exactly 0 when `netRevenue ≤ 0` — the guarded
branch never divides. -/
theorem c7_margin_guard (sales : List Sale) (expenses : List Expense)
    (uid : Nat) (startT : Int) (cur : Currency) :
    (composeDashboardMetrics sales expenses uid startT cur).netProfit
        = (composeDashboardMetrics sales expenses uid startT cur).netRevenue
          - (composeDashboardMetrics sales expenses uid startT cur).totalExpenses ∧
    (0 < (composeDashboardMetrics sales expenses uid startT cur).netRevenue →
      (composeDashboardMetrics sales expenses uid startT cur).profitMargin
        = toFixed2 ((composeDashboardMetrics sales expenses uid startT cur).netProfit
            / (composeDashboardMetrics sales expenses uid startT cur).netRevenue * 100)) ∧
    ((composeDashboardMetrics sales expenses uid startT cur).netRevenue ≤ 0 →
      (composeDashboardMetrics sales expenses uid startT cur).profitMargin = 0) :=
  ⟨rfl, profitMargin_of_pos_netRevenue sales expenses uid startT cur,
    profitMargin_of_nonpos_netRevenue sales expenses uid startT cur⟩

/-- Witness for C7 (amended) on an empty store: every total is zero, so the
`netRevenue ≤ 0` guard branch reports margin 0. -/
theorem c7_margin_guard_witness :
    (composeDashboardMetrics [] [] 1 0 Currency.GBP).netProfit
        = (composeDashboardMetrics [] [] 1 0 Currency.GBP).netRevenue
          - (composeDashboardMetrics [] [] 1 0 Currency.GBP).totalExpenses ∧
    (composeDashboardMetrics [] [] 1 0 Currency.GBP).profitMargin = 0 :=
  ⟨(c7_margin_guard [] [] 1 0 Currency.GBP).1,
   (c7_margin_guard [] [] 1 0 Currency.GBP).2.2 (by norm_num [composeDashboardMetrics,
      salesMetrics, expenseMetrics, zeroSalesData, zeroExpenseData])⟩

/-- A matching sale with `salePrice = 3` and no fees. -/
def smallSale : Sale :=
  { user := 1, product := 1, quantity := 1, salePrice := 3
    currency := Currency.GBP, platform := Platform.vinted
    fees := { platformFee := 0, paymentFee := 0, shippingFee := 0
              promotionDiscount := 0, other := 0 }
    saleDate := 10, status := SaleStatus.completed
    isReturned := false, isArchived := false }

/-- A matching expense of amount 2. -/
def smallExpense : Expense :=
  { user := 1, amount := 2, currency := Currency.GBP, date := 10, isArchived := false }

/-- Claim C7, counterexample: with one matching sale of 3 and one matching
expense of 2, the composed metrics have `netRevenue = 3` and
`netProfit = 1`; the claim says `profitMargin = netProfit/netRevenue × 100 =
100/3`, but the source reports the rounded value 33.33. -/
theorem c7_counterexample_margin_rounded :
    (composeDashboardMetrics [smallSale] [smallExpense] 1 0 Currency.GBP).netRevenue = 3 ∧
    (composeDashboardMetrics [smallSale] [smallExpense] 1 0 Currency.GBP).netProfit = 1 ∧
    (composeDashboardMetrics [smallSale] [smallExpense] 1 0 Currency.GBP).profitMargin
      = 3333 / 100 ∧
    (1 : ℚ) / 3 * 100 = 100 / 3 ∧
    (3333 / 100 : ℚ) ≠ 100 / 3 := by
  have hrev : (composeDashboardMetrics [smallSale] [smallExpense] 1 0
      Currency.GBP).netRevenue = 3 := by
    simp +decide [composeDashboardMetrics, salesMetrics, expenseMetrics,
      saleMatchesMetrics, expenseMatchesMetrics, saleFeeTerm, smallSale, smallExpense]
  have hprofit : (composeDashboardMetrics [smallSale] [smallExpense] 1 0
      Currency.GBP).netProfit = 1 := by
    simp +decide [composeDashboardMetrics, salesMetrics, expenseMetrics,
      saleMatchesMetrics, expenseMatchesMetrics, saleFeeTerm, smallSale, smallExpense]
    norm_num
  refine ⟨hrev, hprofit, ?_, by norm_num, by norm_num⟩
  have hmargin := profitMargin_of_pos_netRevenue [smallSale] [smallExpense] 1 0
    Currency.GBP (by rw [hrev]; norm_num)
  rw [hmargin, hprofit, hrev]
  unfold toFixed2
  rw [if_neg (by norm_num)]
  have hf : (⌊(1 : ℚ) / 3 * 100 * 100 + 1 / 2⌋ : ℤ) = 3333 := by
    rw [Int.floor_eq_iff]
    constructor <;> norm_num
  rw [hf]
  norm_num

/-- Claim C8: for every `now`, the quarter branch of the period switch starts
on the first day of the 3-month block containing the month of `now`
(month index floor-divided by 3, times 3) in the same year — in particular
2024-05-15 resolves to 2024-04-01 — and for every resolved range the
previous-period query matches exactly the equal-length window
`[start − (end − start), start)` ending where the current range starts. -/
theorem c8_quarter_and_previous_period (now : JSDate) (startT endT : Int)
    (uid : Nat) (cur : Currency) (s : Sale) :
    ((quarterStartDate now).year = now.year ∧
      (quarterStartDate now).day = 1 ∧
      (quarterStartDate now).month % 3 = 0 ∧
      (quarterStartDate now).month ≤ now.month ∧
      now.month < (quarterStartDate now).month + 3) ∧
    quarterStartDate { year := 2024, month := 4, day := 15 }
      = { year := 2024, month := 3, day := 1 } ∧
    (startT - previousPeriodStart startT endT = endT - startT ∧
      (saleMatchesPrevious uid (previousPeriodStart startT endT) startT cur s = true ↔
        (s.user = uid ∧ s.isArchived = false ∧ s.currency = cur ∧
          startT - (endT - startT) ≤ s.saleDate ∧ s.saleDate < startT))) := by
  refine ⟨⟨rfl, rfl, ?_, ?_, ?_⟩, rfl, ?_, ?_⟩
  · show now.month / 3 * 3 % 3 = 0
    omega
  · show now.month / 3 * 3 ≤ now.month
    omega
  · show now.month < now.month / 3 * 3 + 3
    omega
  · unfold previousPeriodStart
    ring
  · unfold saleMatchesPrevious previousPeriodStart
    simp [Bool.and_eq_true, decide_eq_true_eq, beq_iff_eq, Bool.not_eq_true']
    tauto

/-- Claim C9: a free-tier user with at least 80 non-archived products gets
exactly one `subscription_limit` alert, with severity `info`,
`actionRequired = false` and `data.currentCount` equal to the non-archived
product count against the 100 cap; a pro-tier user never gets one. -/
theorem c9_subscription_limit_alert (u : User) (uid : Nat)
    (products : List Product) (sales : List Sale) :
    (u.subscriptionType = SubscriptionType.free →
      80 ≤ nonArchivedProductCount products uid →
      (deriveAlerts u uid products sales).filter
          (fun a => a.type == AlertType.subscription_limit)
        = [subscriptionLimitAlert (nonArchivedProductCount products uid)]) ∧
    (u.subscriptionType = SubscriptionType.pro →
      (deriveAlerts u uid products sales).filter
          (fun a => a.type == AlertType.subscription_limit) = []) := by
  unfold deriveAlerts
  constructor
  · intro hfree hcount
    simp only [hfree]
    split_ifs <;>
      simp_all [List.filter_append, subscriptionLimitAlert]
  · intro hpro
    simp only [hpro]
    split_ifs <;>
      simp_all [List.filter_append, subscriptionLimitAlert]

/-- A free-tier user and a stock product for the C9 witness. -/
def freeUser : User :=
  { currency := Currency.GBP, subscriptionType := SubscriptionType.free }

/-- A plain in-stock product owned by user 1. -/
def stockProduct : Product :=
  { user := 1, purchasePrice := 10
    inventory := { quantity := 5, restockThreshold := 1 }
    status := ProductStatus.active, totalSales := 0, isArchived := false }

/-- Witness for C9: a free-tier user with exactly 80 non-archived products
gets the single `subscription_limit` alert carrying `currentCount = 80`. -/
theorem c9_subscription_limit_alert_witness :
    (deriveAlerts freeUser 1 (List.replicate 80 stockProduct) []).filter
        (fun a => a.type == AlertType.subscription_limit)
      = [subscriptionLimitAlert
          (nonArchivedProductCount (List.replicate 80 stockProduct) 1)] :=
  (c9_subscription_limit_alert freeUser 1 (List.replicate 80 stockProduct) []).1
    rfl (by decide)

/-- Claim C10: when no Sale and no Expense match the aggregation filters, the
dashboard metric assembly returns the all-zero summary — counts, totals,
average, net revenue, net profit and profit margin all exactly 0, with no
failure case. -/
theorem c10_empty_period_all_zero (sales : List Sale) (expenses : List Expense)
    (uid : Nat) (startT : Int) (cur : Currency)
    (hs : ∀ s ∈ sales, saleMatchesMetrics uid startT cur s = false)
    (he : ∀ e ∈ expenses, expenseMatchesMetrics uid startT cur e = false) :
    composeDashboardMetrics sales expenses uid startT cur =
      { totalSales := 0, totalRevenue := 0, totalFees := 0, averageOrderValue := 0
        totalExpenses := 0, expenseCount := 0
        netRevenue := 0, netProfit := 0, profitMargin := 0 } := by
  have h1 : sales.filter (saleMatchesMetrics uid startT cur) = [] :=
    List.filter_eq_nil_iff.mpr (fun s hmem => by simp [hs s hmem])
  have h2 : expenses.filter (expenseMatchesMetrics uid startT cur) = [] :=
    List.filter_eq_nil_iff.mpr (fun e hmem => by simp [he e hmem])
  unfold composeDashboardMetrics salesMetrics expenseMetrics
  rw [h1, h2]
  norm_num [zeroSalesData, zeroExpenseData]

/-- Witness for C10 on the empty store. -/
theorem c10_empty_period_all_zero_witness :
    composeDashboardMetrics [] [] 1 0 Currency.GBP =
      { totalSales := 0, totalRevenue := 0, totalFees := 0, averageOrderValue := 0
        totalExpenses := 0, expenseCount := 0
        netRevenue := 0, netProfit := 0, profitMargin := 0 } :=
  c10_empty_period_all_zero [] [] 1 0 Currency.GBP
    (fun s hmem => absurd hmem (List.not_mem_nil s))
    (fun e hmem => absurd hmem (List.not_mem_nil e))

end Budget
